import Mathlib

/-!
Shallow embedding of the index-validation rules of
`libs/datamodel/core/src/transform/ast_to_dml/validation_pipeline/validations/indexes.rs`.
The collaborator types (spans, diagnostics sink, walkers, capability and
feature oracles) live outside that file; they are modelled from the spec's
interface description, while each rule body is a direct translation of the
Rust source.
-/

namespace Indexes

/-- Modelled from the spec: a source-location range (`crate::ast::Span` is not
under `src/`); `Span.empty` is the zero-length range the code uses as a last
fallback via `Span::empty()`. -/
structure Span where
  start : Nat
  endPos : Nat
deriving DecidableEq, BEq

def Span.empty : Span := ⟨0, 0⟩

inductive SortOrder
  | Asc
  | Desc
deriving DecidableEq, BEq

inductive IndexAlgorithm
  | BTree
  | Hash
deriving DecidableEq, BEq

inductive IndexType
  | Normal
  | Unique
  | Fulltext
deriving DecidableEq, BEq

inductive PreviewFeature
  | ExtendedIndexes
  | FullTextIndex
  | NamedConstraints
deriving DecidableEq, BEq

inductive ConnectorCapability
  | IndexColumnLengthPrefixing
  | UsingHashIndex
  | FullTextIndex
  | SortOrderInFullTextIndex
deriving DecidableEq, BEq

/-- Modelled from the spec: a diagnostic value `{ attribute_tag, message, span }`
(`diagnostics::DatamodelError` is not under `src/`). -/
structure DatamodelError where
  message : String
  attribute_name : String
  span : Span
deriving DecidableEq, BEq

def DatamodelError.new_attribute_validation_error
    (message : String) (attribute_name : String) (span : Span) : DatamodelError :=
  ⟨message, attribute_name, span⟩

/-- Modelled from the spec: the diagnostics sink accumulates errors append-only
(`diagnostics::Diagnostics` is not under `src/`). -/
structure Diagnostics where
  errors : List DatamodelError
deriving DecidableEq, BEq

def Diagnostics.push_error (d : Diagnostics) (e : DatamodelError) : Diagnostics :=
  ⟨d.errors ++ [e]⟩

def Diagnostics.empty : Diagnostics := ⟨[]⟩

/-- Modelled from the spec: the parsed attribute syntax node, exposing its span
and the spans of its named arguments (`ast::Attribute` is not under `src/`). -/
structure AstAttribute where
  span : Span
  arguments : List (String × Span)
deriving DecidableEq, BEq

def AstAttribute.span_for_argument (a : AstAttribute) (arg : String) : Option Span :=
  a.arguments.lookup arg

/-- Modelled from the spec: the parsed model syntax node with its span. -/
structure AstModel where
  span : Span
deriving DecidableEq, BEq

/-- Modelled from the spec: the owning structural container (model walker). -/
structure ModelWalker where
  model_id : Nat
  name : String
  ast_model : AstModel
deriving DecidableEq, BEq

/-- Modelled from the spec: the index attribute data in the schema database,
exposing the declaration kind and the optional algorithm selector. -/
structure IndexAttribute where
  tpe : IndexType
  algorithm : Option IndexAlgorithm
deriving DecidableEq, BEq

def IndexAttribute.is_fulltext (a : IndexAttribute) : Bool :=
  a.tpe == IndexType.Fulltext

/-- Modelled from the spec: a per-field reference with optional length and
sort-order modifiers. -/
structure FieldAttribute where
  sort_order : Option SortOrder
  length : Option Nat
deriving DecidableEq, BEq

/-- Modelled from the spec: the read-only view over one index declaration
(`db::walkers::IndexWalker` is not under `src/`). -/
structure IndexWalker where
  model : ModelWalker
  attr : IndexAttribute
  ast_attribute : Option AstAttribute
  scalar_field_attributes : List FieldAttribute
  final_database_name : String

/-- Modelled from the spec: the attribute tag of the declaration kind
(`IndexWalker::attribute_name`, not under `src/`, returns the attribute's
name: index, unique or fulltext). -/
def IndexWalker.attribute_name (index : IndexWalker) : String :=
  match index.attr.tpe with
  | IndexType.Normal => "index"
  | IndexType.Unique => "unique"
  | IndexType.Fulltext => "fulltext"

inductive ConstraintName
  | Index (name : String)

/-- Modelled from the spec: a name collision in the containing namespace scope,
exposing a human-readable description given the model name. -/
structure ScopeViolation where
  description : String → String

/-- Modelled from the spec: the active connector exposes a read-only
capability-membership predicate. -/
structure Connector where
  capabilities : List ConnectorCapability

def Connector.has_capability (c : Connector) (cap : ConnectorCapability) : Bool :=
  c.capabilities.contains cap

/-- Modelled from the spec: the schema database carries the enabled preview
features, the active connector, and the namespace-scope query. -/
structure ParserDatabase where
  preview_features : List PreviewFeature
  connector : Connector
  scope_violations_fn : Nat → ConstraintName → List ScopeViolation

def ParserDatabase.active_connector (db : ParserDatabase) : Connector :=
  db.connector

def ParserDatabase.scope_violations (db : ParserDatabase) (model_id : Nat)
    (name : ConstraintName) : List ScopeViolation :=
  db.scope_violations_fn model_id name

def ParserDatabase.with_connector (db : ParserDatabase) (c : Connector) : ParserDatabase :=
  { db with connector := c }

def ParserDatabase.with_features (db : ParserDatabase) (f : List PreviewFeature) : ParserDatabase :=
  { db with preview_features := f }

def IndexWalker.with_fields (index : IndexWalker) (fs : List FieldAttribute) : IndexWalker :=
  { index with scalar_field_attributes := fs }

/-- The diagnostic pushed for one namespace-scope violation, with the span
fallback chain: map argument, name argument, whole attribute, model. -/
def unique_name_violation_error (index : IndexWalker) (violation : ScopeViolation) : DatamodelError :=
  let name := index.final_database_name
  let message :=
    "The given constraint name `" ++ name ++
    "` has to be unique in the following namespace: " ++
    violation.description index.model.name ++
    ". Please provide a different name using the `map` argument."
  let span :=
    (index.ast_attribute.map (fun a =>
      (((a.span_for_argument "map").orElse (fun _ => a.span_for_argument "name")).getD a.span))).getD
      index.model.ast_model.span
  DatamodelError.new_attribute_validation_error message index.attribute_name span

/-- Validates index and unique constraint names against the database
requirements (source lines 13-42). -/
def has_a_unique_constraint_name (db : ParserDatabase) (index : IndexWalker)
    (diagnostics : Diagnostics) : Diagnostics :=
  (db.scope_violations index.model.model_id
      (ConstraintName.Index index.final_database_name)).foldl
    (fun diags violation => diags.push_error (unique_name_violation_error index violation))
    diagnostics

/-- The diagnostic pushed by the extended-indexes preview-feature gate. -/
def extended_indexes_error (index : IndexWalker) : DatamodelError :=
  DatamodelError.new_attribute_validation_error
    "You must enable `extendedIndexes` preview feature to use sort or length parameters."
    index.attribute_name
    ((index.ast_attribute.map (fun i => i.span)).getD Span.empty)

/-- Sort and length are not yet allowed without the preview flag
(source lines 45-66). -/
def uses_length_or_sort_without_preview_flag (db : ParserDatabase) (index : IndexWalker)
    (diagnostics : Diagnostics) : Diagnostics :=
  if db.preview_features.contains PreviewFeature.ExtendedIndexes then
    diagnostics
  else if index.scalar_field_attributes.any
      (fun f => f.sort_order.isSome || f.length.isSome) then
    diagnostics.push_error (extended_indexes_error index)
  else
    diagnostics

/-- The diagnostic pushed when the connector lacks length-prefix support. -/
def length_prefix_error (index : IndexWalker) : DatamodelError :=
  DatamodelError.new_attribute_validation_error
    "The length argument is not supported in an index definition with the current connector"
    index.attribute_name
    ((index.ast_attribute.map (fun i => i.span)).getD Span.empty)

/-- The database must support the index length prefix for it to be allowed
(source lines 69-91). -/
def field_length_prefix_supported (db : ParserDatabase) (index : IndexWalker)
    (diagnostics : Diagnostics) : Diagnostics :=
  if (db.active_connector).has_capability ConnectorCapability.IndexColumnLengthPrefixing then
    diagnostics
  else if index.scalar_field_attributes.any (fun f => f.length.isSome) then
    diagnostics.push_error (length_prefix_error index)
  else
    diagnostics

/-- The diagnostic pushed when a hash algorithm is selected on a connector
that lacks the capability; its tag is the literal string index. -/
def hash_algorithm_error (index : IndexWalker) : DatamodelError :=
  DatamodelError.new_attribute_validation_error
    "The given type argument is not supported with the current connector"
    "index"
    ((index.ast_attribute.bind (fun i => i.span_for_argument "type")).getD Span.empty)

/-- Is Hash supported as the type argument (source lines 94-115). -/
def index_algorithm_is_supported (db : ParserDatabase) (index : IndexWalker)
    (diagnostics : Diagnostics) : Diagnostics :=
  if (db.active_connector).has_capability ConnectorCapability.UsingHashIndex then
    diagnostics
  else if index.attr.algorithm == some IndexAlgorithm.Hash then
    diagnostics.push_error (hash_algorithm_error index)
  else
    diagnostics

/-- The diagnostic pushed by the full-text preview-feature gate. -/
def fulltext_feature_error (index : IndexWalker) : DatamodelError :=
  DatamodelError.new_attribute_validation_error
    "You must enable `fullTextIndex` preview feature to be able to define a @@fulltext index."
    "fulltext"
    ((index.ast_attribute.map (fun i => i.span)).getD index.model.ast_model.span)

/-- The fulltext attribute is not available without the fullTextIndex preview
feature (source lines 118-139). -/
def fulltext_index_preview_feature_enabled (db : ParserDatabase) (index : IndexWalker)
    (diagnostics : Diagnostics) : Diagnostics :=
  if db.preview_features.contains PreviewFeature.FullTextIndex then
    diagnostics
  else if index.attr.is_fulltext then
    diagnostics.push_error (fulltext_feature_error index)
  else
    diagnostics

/-- The diagnostic pushed when the connector does not support full-text. -/
def fulltext_support_error (index : IndexWalker) : DatamodelError :=
  DatamodelError.new_attribute_validation_error
    "Defining fulltext indexes is not supported with the current connector."
    "fulltext"
    ((index.ast_attribute.map (fun i => i.span)).getD index.model.ast_model.span)

/-- The fulltext attribute should only be available if the database supports
it (source lines 142-163). -/
def fulltext_index_supported (db : ParserDatabase) (index : IndexWalker)
    (diagnostics : Diagnostics) : Diagnostics :=
  if (db.active_connector).has_capability ConnectorCapability.FullTextIndex then
    diagnostics
  else if index.attr.is_fulltext then
    diagnostics.push_error (fulltext_support_error index)
  else
    diagnostics

/-- The diagnostic pushed by the index-type preview-feature gate. -/
def algorithm_feature_error (index : IndexWalker) : DatamodelError :=
  DatamodelError.new_attribute_validation_error
    "You must enable `extendedIndexes` preview feature to be able to define the index type."
    "index"
    ((index.ast_attribute.bind (fun i => i.span_for_argument "type")).getD Span.empty)

/-- Defining the type must be with the extendedIndexes preview feature
(source lines 166-185). -/
def index_algorithm_preview_feature (db : ParserDatabase) (index : IndexWalker)
    (diagnostics : Diagnostics) : Diagnostics :=
  if db.preview_features.contains PreviewFeature.ExtendedIndexes then
    diagnostics
  else if index.attr.algorithm.isSome then
    diagnostics.push_error (algorithm_feature_error index)
  else
    diagnostics

/-- The diagnostic pushed when a full-text column defines a length argument. -/
def fulltext_length_error (index : IndexWalker) : DatamodelError :=
  DatamodelError.new_attribute_validation_error
    "The length argument is not supported in a @@fulltext attribute."
    index.attribute_name
    ((index.ast_attribute.map (fun i => i.span)).getD index.model.ast_model.span)

/-- Fulltext index columns should not define the length argument
(source lines 188-218). -/
def fulltext_columns_should_not_define_length (db : ParserDatabase) (index : IndexWalker)
    (diagnostics : Diagnostics) : Diagnostics :=
  if !(db.preview_features.contains PreviewFeature.FullTextIndex) then
    diagnostics
  else if !((db.active_connector).has_capability ConnectorCapability.FullTextIndex) then
    diagnostics
  else if !(index.attr.is_fulltext) then
    diagnostics
  else if index.scalar_field_attributes.any (fun f => f.length.isSome) then
    diagnostics.push_error (fulltext_length_error index)
  else
    diagnostics

/-- The diagnostic pushed when sort order is used in a full-text index on a
connector without that capability. -/
def fulltext_sort_error (index : IndexWalker) : DatamodelError :=
  DatamodelError.new_attribute_validation_error
    "The sort argument is not supported in a @@fulltext attribute in the current connector."
    index.attribute_name
    ((index.ast_attribute.map (fun i => i.span)).getD index.model.ast_model.span)

/-- Only some connectors support sort order in a fulltext index
(source lines 221-258). -/
def fulltext_column_sort_is_supported (db : ParserDatabase) (index : IndexWalker)
    (diagnostics : Diagnostics) : Diagnostics :=
  if !(db.preview_features.contains PreviewFeature.FullTextIndex) then
    diagnostics
  else if !((db.active_connector).has_capability ConnectorCapability.FullTextIndex) then
    diagnostics
  else if !(index.attr.is_fulltext) then
    diagnostics
  else if (db.active_connector).has_capability ConnectorCapability.SortOrderInFullTextIndex then
    diagnostics
  else if index.scalar_field_attributes.any (fun f => f.sort_order.isSome) then
    diagnostics.push_error (fulltext_sort_error index)
  else
    diagnostics

/-- The states of the field-bundling state machine (source lines 289-298). -/
inductive State
  | Init
  | SortParamHead
  | TextFieldBundle
  | SortParamTail
deriving DecidableEq, BEq

/-- The diagnostic pushed on the illegal SortParamTail + unsorted transition,
spanning the whole attribute (or the model as fallback). -/
def bundle_error (index : IndexWalker) : DatamodelError :=
  DatamodelError.new_attribute_validation_error
    "All index fields must be listed adjacently in the fields argument."
    "fulltext"
    ((index.ast_attribute.map (fun i => i.span)).getD index.model.ast_model.span)

/-- The field loop of the bundling checker (source lines 300-324): the state
machine over the field list, emitting once and stopping on the illegal
transition. -/
def bundle_loop (index : IndexWalker) (diagnostics : Diagnostics) :
    State → List FieldAttribute → Diagnostics
  | _, [] => diagnostics
  | State.Init, field :: rest =>
    if field.sort_order.isSome then
      bundle_loop index diagnostics State.SortParamHead rest
    else
      bundle_loop index diagnostics State.TextFieldBundle rest
  | State.SortParamHead, field :: rest =>
    if field.sort_order.isSome then
      bundle_loop index diagnostics State.SortParamHead rest
    else
      bundle_loop index diagnostics State.TextFieldBundle rest
  | State.TextFieldBundle, field :: rest =>
    if field.sort_order.isSome then
      bundle_loop index diagnostics State.SortParamTail rest
    else
      bundle_loop index diagnostics State.TextFieldBundle rest
  | State.SortParamTail, field :: rest =>
    if field.sort_order.isSome then
      bundle_loop index diagnostics State.SortParamTail rest
    else
      diagnostics.push_error (bundle_error index)

/-- All text keys must be bundled together (source lines 265-325). -/
def fulltext_text_columns_should_be_bundled_together (db : ParserDatabase) (index : IndexWalker)
    (diagnostics : Diagnostics) : Diagnostics :=
  if !(db.preview_features.contains PreviewFeature.FullTextIndex) then
    diagnostics
  else if !((db.active_connector).has_capability ConnectorCapability.FullTextIndex) then
    diagnostics
  else if !(index.attr.is_fulltext) then
    diagnostics
  else if !((db.active_connector).has_capability ConnectorCapability.SortOrderInFullTextIndex) then
    diagnostics
  else
    bundle_loop index diagnostics State.Init index.scalar_field_attributes

/-- Modelled from the spec: the host driver (validations/mod.rs, not under
`src/`) invokes the full rule set against each declaration once, in the fixed
order of the spec's rule table. -/
def validate_index (db : ParserDatabase) (index : IndexWalker)
    (diagnostics : Diagnostics) : Diagnostics :=
  let d1 := has_a_unique_constraint_name db index diagnostics
  let d2 := uses_length_or_sort_without_preview_flag db index d1
  let d3 := field_length_prefix_supported db index d2
  let d4 := index_algorithm_is_supported db index d3
  let d5 := fulltext_index_preview_feature_enabled db index d4
  let d6 := fulltext_index_supported db index d5
  let d7 := index_algorithm_preview_feature db index d6
  let d8 := fulltext_columns_should_not_define_length db index d7
  let d9 := fulltext_column_sort_is_supported db index d8
  fulltext_text_columns_should_be_bundled_together db index d9

/-- The per-field sorted flags of a field list: true when the field carries a
sort order (the guard tested by the state machine). -/
def sorted_flags (fields : List FieldAttribute) : List Bool :=
  fields.map (fun f => f.sort_order.isSome)

/-- Reference recursion for the machine started in SortParamTail: any further
unsorted field is an error. -/
def errs_tail : List Bool → Bool
  | [] => false
  | true :: rest => errs_tail rest
  | false :: _ => true

/-- Reference recursion for the machine started in TextFieldBundle. -/
def errs_bundle : List Bool → Bool
  | [] => false
  | false :: rest => errs_bundle rest
  | true :: rest => errs_tail rest

/-- Reference recursion for the machine started in Init or SortParamHead. -/
def errs_head : List Bool → Bool
  | [] => false
  | true :: rest => errs_head rest
  | false :: rest => errs_bundle rest

/-- The state-indexed reference recursion; Init and SortParamHead coincide. -/
def errs_state : State → List Bool → Bool
  | State.Init, l => errs_head l
  | State.SortParamHead, l => errs_head l
  | State.TextFieldBundle, l => errs_bundle l
  | State.SortParamTail, l => errs_tail l

/-- Written from the spec's words, for comparison with the machine: the number
of maximal contiguous runs of unsorted (false) flags, with a flag telling
whether the previous flag was unsorted. -/
def unsorted_runs : Bool → List Bool → Nat
  | _, [] => 0
  | in_run, false :: rest => (if in_run then 0 else 1) + unsorted_runs true rest
  | _, true :: rest => unsorted_runs false rest

/- Concrete demonstration inputs used by witnesses and counterexamples. -/

def field_sorted : FieldAttribute := ⟨some SortOrder.Asc, none⟩

def field_unsorted : FieldAttribute := ⟨none, none⟩

def demo_connector : Connector :=
  ⟨[ConnectorCapability.IndexColumnLengthPrefixing, ConnectorCapability.UsingHashIndex,
    ConnectorCapability.FullTextIndex, ConnectorCapability.SortOrderInFullTextIndex]⟩

def demo_db : ParserDatabase :=
  ⟨[PreviewFeature.ExtendedIndexes, PreviewFeature.FullTextIndex], demo_connector,
   fun _ _ => []⟩

/-- A database with both preview features enabled and a connector that
supports full-text but not sort order in full-text. -/
def no_sort_db : ParserDatabase :=
  ⟨[PreviewFeature.ExtendedIndexes, PreviewFeature.FullTextIndex],
   ⟨[ConnectorCapability.FullTextIndex]⟩,
   fun _ _ => []⟩

/-- A database with no preview features and a connector with no capabilities. -/
def bare_db : ParserDatabase := ⟨[], ⟨[]⟩, fun _ _ => []⟩

def demo_attribute : AstAttribute := ⟨⟨3, 20⟩, [("type", ⟨7, 11⟩)]⟩

def demo_fulltext_index (fields : List FieldAttribute) : IndexWalker :=
  ⟨⟨0, "A", ⟨⟨1, 30⟩⟩⟩, ⟨IndexType.Fulltext, none⟩, some demo_attribute, fields, "A_idx"⟩

/-- A plain index declaration with no attribute syntax node, one field with a
length modifier, and a nonempty model span. -/
def bare_length_index : IndexWalker :=
  ⟨⟨0, "A", ⟨⟨5, 10⟩⟩⟩, ⟨IndexType.Normal, none⟩, none, [⟨none, some 10⟩], "A_idx"⟩

/-- A plain index declaration that selects the hash algorithm. -/
def hash_index : IndexWalker :=
  ⟨⟨0, "A", ⟨⟨1, 30⟩⟩⟩, ⟨IndexType.Normal, some IndexAlgorithm.Hash⟩, some demo_attribute,
   [], "A_idx"⟩

/- Basic lemmas about the diagnostics sink. -/

theorem Diagnostics.push_error_errors (d : Diagnostics) (e : DatamodelError) :
    (d.push_error e).errors = d.errors ++ [e] := rfl

theorem Diagnostics.eq_of_errors {a b : Diagnostics} (h : a.errors = b.errors) : a = b := by
  cases a; cases b; simpa using h

theorem foldl_push_errors {α : Type} (f : α → DatamodelError) (l : List α) (d : Diagnostics) :
    (l.foldl (fun diags v => diags.push_error (f v)) d).errors = d.errors ++ l.map f := by
  induction l generalizing d with
  | nil => simp
  | cons a rest ih =>
    rw [List.foldl_cons, ih]
    simp [Diagnostics.push_error]

/- The list each rule appends, as a function of the database and the
declaration alone; one lemma per rule shows the rule's output is its input
followed by that list. -/

def unique_new (db : ParserDatabase) (index : IndexWalker) : List DatamodelError :=
  (db.scope_violations index.model.model_id
      (ConstraintName.Index index.final_database_name)).map
    (unique_name_violation_error index)

theorem unique_errors (db : ParserDatabase) (index : IndexWalker) (d : Diagnostics) :
    (has_a_unique_constraint_name db index d).errors = d.errors ++ unique_new db index := by
  unfold has_a_unique_constraint_name unique_new
  exact foldl_push_errors _ _ d

def uses_length_or_sort_new (db : ParserDatabase) (index : IndexWalker) : List DatamodelError :=
  if !(db.preview_features.contains PreviewFeature.ExtendedIndexes)
      && index.scalar_field_attributes.any (fun f => f.sort_order.isSome || f.length.isSome) then
    [extended_indexes_error index]
  else []

theorem uses_length_or_sort_errors (db : ParserDatabase) (index : IndexWalker) (d : Diagnostics) :
    (uses_length_or_sort_without_preview_flag db index d).errors
      = d.errors ++ uses_length_or_sort_new db index := by
  unfold uses_length_or_sort_without_preview_flag uses_length_or_sort_new
  cases h1 : db.preview_features.contains PreviewFeature.ExtendedIndexes <;>
    cases h2 : index.scalar_field_attributes.any
      (fun f => f.sort_order.isSome || f.length.isSome) <;>
    simp [h1, h2, Diagnostics.push_error]

def length_prefix_new (db : ParserDatabase) (index : IndexWalker) : List DatamodelError :=
  if !((db.active_connector).has_capability ConnectorCapability.IndexColumnLengthPrefixing)
      && index.scalar_field_attributes.any (fun f => f.length.isSome) then
    [length_prefix_error index]
  else []

theorem length_prefix_errors (db : ParserDatabase) (index : IndexWalker) (d : Diagnostics) :
    (field_length_prefix_supported db index d).errors = d.errors ++ length_prefix_new db index := by
  unfold field_length_prefix_supported length_prefix_new
  cases h1 : (db.active_connector).has_capability ConnectorCapability.IndexColumnLengthPrefixing <;>
    cases h2 : index.scalar_field_attributes.any (fun f => f.length.isSome) <;>
    simp [h1, h2, Diagnostics.push_error]

def algorithm_support_new (db : ParserDatabase) (index : IndexWalker) : List DatamodelError :=
  if !((db.active_connector).has_capability ConnectorCapability.UsingHashIndex)
      && (index.attr.algorithm == some IndexAlgorithm.Hash) then
    [hash_algorithm_error index]
  else []

theorem algorithm_support_errors (db : ParserDatabase) (index : IndexWalker) (d : Diagnostics) :
    (index_algorithm_is_supported db index d).errors = d.errors ++ algorithm_support_new db index := by
  unfold index_algorithm_is_supported algorithm_support_new
  cases h1 : (db.active_connector).has_capability ConnectorCapability.UsingHashIndex <;>
    cases h2 : index.attr.algorithm == some IndexAlgorithm.Hash <;>
    simp [h1, h2, Diagnostics.push_error]

def fulltext_feature_new (db : ParserDatabase) (index : IndexWalker) : List DatamodelError :=
  if !(db.preview_features.contains PreviewFeature.FullTextIndex)
      && index.attr.is_fulltext then
    [fulltext_feature_error index]
  else []

theorem fulltext_feature_errors (db : ParserDatabase) (index : IndexWalker) (d : Diagnostics) :
    (fulltext_index_preview_feature_enabled db index d).errors
      = d.errors ++ fulltext_feature_new db index := by
  unfold fulltext_index_preview_feature_enabled fulltext_feature_new
  cases h1 : db.preview_features.contains PreviewFeature.FullTextIndex <;>
    cases h2 : index.attr.is_fulltext <;>
    simp [h1, h2, Diagnostics.push_error]

def fulltext_support_new (db : ParserDatabase) (index : IndexWalker) : List DatamodelError :=
  if !((db.active_connector).has_capability ConnectorCapability.FullTextIndex)
      && index.attr.is_fulltext then
    [fulltext_support_error index]
  else []

theorem fulltext_support_errors (db : ParserDatabase) (index : IndexWalker) (d : Diagnostics) :
    (fulltext_index_supported db index d).errors = d.errors ++ fulltext_support_new db index := by
  unfold fulltext_index_supported fulltext_support_new
  cases h1 : (db.active_connector).has_capability ConnectorCapability.FullTextIndex <;>
    cases h2 : index.attr.is_fulltext <;>
    simp [h1, h2, Diagnostics.push_error]

def algorithm_feature_new (db : ParserDatabase) (index : IndexWalker) : List DatamodelError :=
  if !(db.preview_features.contains PreviewFeature.ExtendedIndexes)
      && index.attr.algorithm.isSome then
    [algorithm_feature_error index]
  else []

theorem algorithm_feature_errors (db : ParserDatabase) (index : IndexWalker) (d : Diagnostics) :
    (index_algorithm_preview_feature db index d).errors
      = d.errors ++ algorithm_feature_new db index := by
  unfold index_algorithm_preview_feature algorithm_feature_new
  cases h1 : db.preview_features.contains PreviewFeature.ExtendedIndexes <;>
    cases h2 : index.attr.algorithm.isSome <;>
    simp [h1, h2, Diagnostics.push_error]

def fulltext_length_new (db : ParserDatabase) (index : IndexWalker) : List DatamodelError :=
  if db.preview_features.contains PreviewFeature.FullTextIndex
      && (db.active_connector).has_capability ConnectorCapability.FullTextIndex
      && index.attr.is_fulltext
      && index.scalar_field_attributes.any (fun f => f.length.isSome) then
    [fulltext_length_error index]
  else []

theorem fulltext_length_errors (db : ParserDatabase) (index : IndexWalker) (d : Diagnostics) :
    (fulltext_columns_should_not_define_length db index d).errors
      = d.errors ++ fulltext_length_new db index := by
  unfold fulltext_columns_should_not_define_length fulltext_length_new
  cases h1 : db.preview_features.contains PreviewFeature.FullTextIndex <;>
    cases h2 : (db.active_connector).has_capability ConnectorCapability.FullTextIndex <;>
    cases h3 : index.attr.is_fulltext <;>
    cases h4 : index.scalar_field_attributes.any (fun f => f.length.isSome) <;>
    simp [h1, h2, h3, h4, Diagnostics.push_error]

def fulltext_sort_new (db : ParserDatabase) (index : IndexWalker) : List DatamodelError :=
  if db.preview_features.contains PreviewFeature.FullTextIndex
      && (db.active_connector).has_capability ConnectorCapability.FullTextIndex
      && index.attr.is_fulltext
      && !((db.active_connector).has_capability ConnectorCapability.SortOrderInFullTextIndex)
      && index.scalar_field_attributes.any (fun f => f.sort_order.isSome) then
    [fulltext_sort_error index]
  else []

theorem fulltext_sort_errors (db : ParserDatabase) (index : IndexWalker) (d : Diagnostics) :
    (fulltext_column_sort_is_supported db index d).errors
      = d.errors ++ fulltext_sort_new db index := by
  unfold fulltext_column_sort_is_supported fulltext_sort_new
  cases h1 : db.preview_features.contains PreviewFeature.FullTextIndex <;>
    cases h2 : (db.active_connector).has_capability ConnectorCapability.FullTextIndex <;>
    cases h3 : index.attr.is_fulltext <;>
    cases h4 : (db.active_connector).has_capability ConnectorCapability.SortOrderInFullTextIndex <;>
    cases h5 : index.scalar_field_attributes.any (fun f => f.sort_order.isSome) <;>
    simp [h1, h2, h3, h4, h5, Diagnostics.push_error]

/- The field-bundling state machine: its loop agrees with the state-indexed
reference recursion on the sorted flags. -/

theorem bundle_loop_eq (index : IndexWalker) (d : Diagnostics) (state : State)
    (fields : List FieldAttribute) :
    bundle_loop index d state fields =
      if errs_state state (sorted_flags fields) then d.push_error (bundle_error index)
      else d := by
  induction fields generalizing state with
  | nil =>
    cases state <;>
      simp [bundle_loop, errs_state, errs_head, errs_bundle, errs_tail, sorted_flags]
  | cons f rest ih =>
    cases state <;> cases hf : f.sort_order.isSome <;>
      simp [bundle_loop, hf, errs_state, errs_head, errs_bundle, errs_tail, sorted_flags, ih]

def bundling_new (db : ParserDatabase) (index : IndexWalker) : List DatamodelError :=
  if db.preview_features.contains PreviewFeature.FullTextIndex
      && (db.active_connector).has_capability ConnectorCapability.FullTextIndex
      && index.attr.is_fulltext
      && (db.active_connector).has_capability ConnectorCapability.SortOrderInFullTextIndex
      && errs_head (sorted_flags index.scalar_field_attributes) then
    [bundle_error index]
  else []

theorem bundling_errors (db : ParserDatabase) (index : IndexWalker) (d : Diagnostics) :
    (fulltext_text_columns_should_be_bundled_together db index d).errors
      = d.errors ++ bundling_new db index := by
  unfold fulltext_text_columns_should_be_bundled_together bundling_new
  cases h1 : db.preview_features.contains PreviewFeature.FullTextIndex <;>
    cases h2 : (db.active_connector).has_capability ConnectorCapability.FullTextIndex <;>
    cases h3 : index.attr.is_fulltext <;>
    cases h4 : (db.active_connector).has_capability ConnectorCapability.SortOrderInFullTextIndex <;>
    simp [h1, h2, h3, h4, bundle_loop_eq, errs_state]
  split <;> simp_all [Diagnostics.push_error]

/- The reference recursion versus the run-counting reading of the spec. -/

theorem errs_tail_eq_false_iff (l : List Bool) :
    errs_tail l = false ↔ unsorted_runs false l = 0 := by
  induction l with
  | nil => simp [errs_tail, unsorted_runs]
  | cons b rest ih =>
    cases b
    · simp [errs_tail, unsorted_runs]
    · simpa [errs_tail, unsorted_runs] using ih

theorem errs_bundle_eq_false_iff (l : List Bool) :
    errs_bundle l = false ↔ unsorted_runs true l = 0 := by
  induction l with
  | nil => simp [errs_bundle, unsorted_runs]
  | cons b rest ih =>
    cases b
    · simpa [errs_bundle, unsorted_runs] using ih
    · simpa [errs_bundle, unsorted_runs] using errs_tail_eq_false_iff rest

theorem errs_head_eq_false_iff (l : List Bool) :
    errs_head l = false ↔ unsorted_runs false l ≤ 1 := by
  induction l with
  | nil => simp [errs_head, unsorted_runs]
  | cons b rest ih =>
    cases b
    · rw [show errs_head (false :: rest) = errs_bundle rest from rfl,
        errs_bundle_eq_false_iff]
      simp [unsorted_runs]
    · simpa [errs_head, unsorted_runs] using ih

/- An already-detected error persists when more fields are appended. -/

theorem errs_tail_append (l extra : List Bool) (h : errs_tail l = true) :
    errs_tail (l ++ extra) = true := by
  induction l with
  | nil => simp [errs_tail] at h
  | cons b rest ih =>
    cases b
    · simp [errs_tail]
    · simpa [errs_tail] using ih (by simpa [errs_tail] using h)

theorem errs_bundle_append (l extra : List Bool) (h : errs_bundle l = true) :
    errs_bundle (l ++ extra) = true := by
  induction l with
  | nil => simp [errs_bundle] at h
  | cons b rest ih =>
    cases b
    · simpa [errs_bundle] using ih (by simpa [errs_bundle] using h)
    · simpa [errs_bundle] using errs_tail_append rest extra (by simpa [errs_bundle] using h)

theorem errs_head_append (l extra : List Bool) (h : errs_head l = true) :
    errs_head (l ++ extra) = true := by
  induction l with
  | nil => simp [errs_head] at h
  | cons b rest ih =>
    cases b
    · simpa [errs_head] using errs_bundle_append rest extra (by simpa [errs_head] using h)
    · simpa [errs_head] using ih (by simpa [errs_head] using h)

theorem sorted_flags_append (a b : List FieldAttribute) :
    sorted_flags (a ++ b) = sorted_flags a ++ sorted_flags b := by
  simp [sorted_flags]

/- The full pass appends a list of diagnostics that depends only on the
database and the declaration, never on the sink's prior contents. -/

def validate_emissions (db : ParserDatabase) (index : IndexWalker) : List DatamodelError :=
  unique_new db index ++ uses_length_or_sort_new db index ++ length_prefix_new db index
    ++ algorithm_support_new db index ++ fulltext_feature_new db index
    ++ fulltext_support_new db index ++ algorithm_feature_new db index
    ++ fulltext_length_new db index ++ fulltext_sort_new db index ++ bundling_new db index

theorem validate_errors (db : ParserDatabase) (index : IndexWalker) (d : Diagnostics) :
    (validate_index db index d).errors = d.errors ++ validate_emissions db index := by
  simp only [validate_index]
  rw [bundling_errors, fulltext_sort_errors, fulltext_length_errors, algorithm_feature_errors,
    fulltext_support_errors, fulltext_feature_errors, algorithm_support_errors,
    length_prefix_errors, uses_length_or_sort_errors, unique_errors]
  simp [validate_emissions]

/- Every span a rule can attach: a named-argument span of the attribute, the
attribute's own span, the model's span, or the empty span. -/

def span_candidates (index : IndexWalker) : List Span :=
  (match index.ast_attribute with
   | some a => a.arguments.map (fun p => p.2) ++ [a.span]
   | none => []) ++ [index.model.ast_model.span, Span.empty]

theorem lookup_mem_snd (l : List (String × Span)) (k : String) (s : Span)
    (h : l.lookup k = some s) : s ∈ l.map (fun p => p.2) := by
  induction l with
  | nil => simp [List.lookup] at h
  | cons p rest ih =>
    obtain ⟨k', v⟩ := p
    simp only [List.lookup] at h
    cases hk : (k == k') with
    | true =>
      rw [hk] at h
      simp at h
      simp [h]
    | false =>
      rw [hk] at h
      simp at h
      simp [ih h]

theorem attr_or_empty_span_mem (index : IndexWalker) :
    ((index.ast_attribute.map (fun i => i.span)).getD Span.empty) ∈ span_candidates index := by
  cases ha : index.ast_attribute <;> simp [span_candidates, ha]

theorem attr_or_model_span_mem (index : IndexWalker) :
    ((index.ast_attribute.map (fun i => i.span)).getD index.model.ast_model.span)
      ∈ span_candidates index := by
  cases ha : index.ast_attribute <;> simp [span_candidates, ha]

theorem type_arg_span_mem (index : IndexWalker) :
    ((index.ast_attribute.bind (fun i => i.span_for_argument "type")).getD Span.empty)
      ∈ span_candidates index := by
  cases ha : index.ast_attribute with
  | none => simp [span_candidates, ha]
  | some a =>
    cases hl : a.span_for_argument "type" with
    | none => simp [span_candidates, ha, hl]
    | some s =>
      have hm : s ∈ a.arguments.map (fun p => p.2) :=
        lookup_mem_snd a.arguments "type" s
          (by simpa [AstAttribute.span_for_argument] using hl)
      simp [span_candidates, ha, hl, hm]

theorem unique_span_mem (index : IndexWalker) (v : ScopeViolation) :
    (unique_name_violation_error index v).span ∈ span_candidates index := by
  cases ha : index.ast_attribute with
  | none => simp [unique_name_violation_error, DatamodelError.new_attribute_validation_error,
      span_candidates, ha]
  | some a =>
    cases hm : a.span_for_argument "map" with
    | some s =>
      have hmem : s ∈ a.arguments.map (fun p => p.2) :=
        lookup_mem_snd a.arguments "map" s
          (by simpa [AstAttribute.span_for_argument] using hm)
      simp [unique_name_violation_error, DatamodelError.new_attribute_validation_error,
        span_candidates, ha, hm, Option.orElse, hmem]
    | none =>
      cases hn : a.span_for_argument "name" with
      | some s =>
        have hmem : s ∈ a.arguments.map (fun p => p.2) :=
          lookup_mem_snd a.arguments "name" s
            (by simpa [AstAttribute.span_for_argument] using hn)
        simp [unique_name_violation_error, DatamodelError.new_attribute_validation_error,
          span_candidates, ha, hm, hn, Option.orElse, hmem]
      | none =>
        simp [unique_name_violation_error, DatamodelError.new_attribute_validation_error,
          span_candidates, ha, hm, hn, Option.orElse]

theorem mem_emit {e x : DatamodelError} {g : Bool} (h : e ∈ (if g then [x] else [])) :
    e = x := by
  cases g with
  | false => simp at h
  | true => simpa using h

theorem emissions_span_mem (db : ParserDatabase) (index : IndexWalker) (e : DatamodelError)
    (he : e ∈ validate_emissions db index) : e.span ∈ span_candidates index := by
  simp only [validate_emissions, List.mem_append] at he
  rcases he with ((((((((he | he) | he) | he) | he) | he) | he) | he) | he) | he
  · obtain ⟨v, _, rfl⟩ := List.mem_map.mp (by simpa [unique_new] using he)
    exact unique_span_mem index v
  · unfold uses_length_or_sort_new at he
    rw [mem_emit he]
    exact attr_or_empty_span_mem index
  · unfold length_prefix_new at he
    rw [mem_emit he]
    exact attr_or_empty_span_mem index
  · unfold algorithm_support_new at he
    rw [mem_emit he]
    exact type_arg_span_mem index
  · unfold fulltext_feature_new at he
    rw [mem_emit he]
    exact attr_or_model_span_mem index
  · unfold fulltext_support_new at he
    rw [mem_emit he]
    exact attr_or_model_span_mem index
  · unfold algorithm_feature_new at he
    rw [mem_emit he]
    exact type_arg_span_mem index
  · unfold fulltext_length_new at he
    rw [mem_emit he]
    exact attr_or_model_span_mem index
  · unfold fulltext_sort_new at he
    rw [mem_emit he]
    exact attr_or_model_span_mem index
  · unfold bundling_new at he
    rw [mem_emit he]
    exact attr_or_model_span_mem index

/-- C1: the full-text field-bundling checker accepts exactly the field lists
whose unsorted fields form at most one contiguous run: under the rule's four
preconditions the state machine Init/SortHead + sorted -> SortHead,
Init/SortHead + unsorted -> Bundle, Bundle + unsorted -> Bundle,
Bundle + sorted -> SortTail, SortTail + sorted -> SortTail emits no
diagnostic, and only the SortTail + unsorted transition emits one; the
sort-flag sequences [sorted, sorted], [unsorted, unsorted],
[sorted, unsorted, sorted] and the empty list produce no error, while
[unsorted, sorted, unsorted] produces exactly one error. -/
theorem C1_bundling_accepts_at_most_one_unsorted_run :
    (∀ (db : ParserDatabase) (index : IndexWalker),
      db.preview_features.contains PreviewFeature.FullTextIndex = true →
      (db.active_connector).has_capability ConnectorCapability.FullTextIndex = true →
      index.attr.is_fulltext = true →
      (db.active_connector).has_capability ConnectorCapability.SortOrderInFullTextIndex = true →
      ((fulltext_text_columns_should_be_bundled_together db index Diagnostics.empty).errors = []
        ↔ unsorted_runs false (sorted_flags index.scalar_field_attributes) ≤ 1))
    ∧ (fulltext_text_columns_should_be_bundled_together demo_db
        (demo_fulltext_index [field_sorted, field_sorted]) Diagnostics.empty).errors.length = 0
    ∧ (fulltext_text_columns_should_be_bundled_together demo_db
        (demo_fulltext_index [field_unsorted, field_unsorted]) Diagnostics.empty).errors.length = 0
    ∧ (fulltext_text_columns_should_be_bundled_together demo_db
        (demo_fulltext_index [field_sorted, field_unsorted, field_sorted])
        Diagnostics.empty).errors.length = 0
    ∧ (fulltext_text_columns_should_be_bundled_together demo_db
        (demo_fulltext_index [field_unsorted, field_sorted, field_unsorted])
        Diagnostics.empty).errors.length = 1
    ∧ (fulltext_text_columns_should_be_bundled_together demo_db
        (demo_fulltext_index []) Diagnostics.empty).errors.length = 0 := by
  constructor
  · intro db index h1 h2 h3 h4
    rw [bundling_errors db index Diagnostics.empty]
    unfold bundling_new
    simp [h1, h2, h3, h4, Diagnostics.empty]
    cases herr : errs_head (sorted_flags index.scalar_field_attributes)
    · simp [herr]
      exact (errs_head_eq_false_iff _).mp herr
    · simp [herr]
      by_contra hc
      push_neg at hc
      have hf := (errs_head_eq_false_iff (sorted_flags index.scalar_field_attributes)).mpr hc
      rw [hf] at herr
      exact Bool.false_ne_true herr
  · exact ⟨by decide, by decide, by decide, by decide, by decide⟩

/-- Witness for C1 at a concrete declaration with one unsorted field. -/
theorem C1_bundling_witness :
    (fulltext_text_columns_should_be_bundled_together demo_db
        (demo_fulltext_index [field_unsorted]) Diagnostics.empty).errors = []
      ↔ unsorted_runs false (sorted_flags
          (demo_fulltext_index [field_unsorted]).scalar_field_attributes) ≤ 1 :=
  C1_bundling_accepts_at_most_one_unsorted_run.1 demo_db (demo_fulltext_index [field_unsorted])
    (by decide) (by decide) (by decide) (by decide)

/-- C2: on every declaration with a length or sort modifier the extended-gate
rule emits its diagnostic exactly when the extendedIndexes feature is
disabled, and the connector's capabilities have no influence on the
outcome. -/
theorem C2_extended_gate_iff_feature_disabled :
    ∀ (db : ParserDatabase) (index : IndexWalker) (d : Diagnostics),
      index.scalar_field_attributes.any (fun f => f.sort_order.isSome || f.length.isSome) = true →
      ((db.preview_features.contains PreviewFeature.ExtendedIndexes = false →
          (uses_length_or_sort_without_preview_flag db index d).errors
            = d.errors ++ [extended_indexes_error index])
        ∧ (db.preview_features.contains PreviewFeature.ExtendedIndexes = true →
          uses_length_or_sort_without_preview_flag db index d = d)
        ∧ ∀ c : Connector,
          uses_length_or_sort_without_preview_flag (db.with_connector c) index d
            = uses_length_or_sort_without_preview_flag db index d) := by
  intro db index d hany
  refine ⟨fun hoff => ?_, fun hon => ?_, fun c => rfl⟩
  · rw [uses_length_or_sort_errors]
    unfold uses_length_or_sort_new
    simp [hoff, hany]
  · apply Diagnostics.eq_of_errors
    rw [uses_length_or_sort_errors]
    unfold uses_length_or_sort_new
    simp [hon]

/-- Witness for C2 at a concrete declaration with a length modifier and the
feature disabled. -/
theorem C2_extended_gate_witness :
    (uses_length_or_sort_without_preview_flag bare_db bare_length_index Diagnostics.empty).errors
      = Diagnostics.empty.errors ++ [extended_indexes_error bare_length_index] :=
  (C2_extended_gate_iff_feature_disabled bare_db bare_length_index Diagnostics.empty
    (by decide)).1 (by decide)

/-- C3: on a full-text declaration with the fullTextIndex feature disabled and
a connector without the full-text capability, the feature-gate rule and the
connector-support rule each emit their own diagnostic; the connector-support
rule ignores the feature flags entirely; and the full-text length, sort and
bundling checks emit nothing when the feature is disabled. -/
theorem C3_fulltext_gates_independent :
    (∀ (db : ParserDatabase) (index : IndexWalker) (d : Diagnostics),
      index.attr.is_fulltext = true →
      db.preview_features.contains PreviewFeature.FullTextIndex = false →
      (db.active_connector).has_capability ConnectorCapability.FullTextIndex = false →
      (fulltext_index_preview_feature_enabled db index d).errors
          = d.errors ++ [fulltext_feature_error index]
        ∧ (fulltext_index_supported db index d).errors
          = d.errors ++ [fulltext_support_error index])
    ∧ (∀ (db : ParserDatabase) (index : IndexWalker) (d : Diagnostics)
        (feats : List PreviewFeature),
        fulltext_index_supported (db.with_features feats) index d
          = fulltext_index_supported db index d)
    ∧ (∀ (db : ParserDatabase) (index : IndexWalker) (d : Diagnostics),
        db.preview_features.contains PreviewFeature.FullTextIndex = false →
        fulltext_columns_should_not_define_length db index d = d
          ∧ fulltext_column_sort_is_supported db index d = d
          ∧ fulltext_text_columns_should_be_bundled_together db index d = d) := by
  refine ⟨?_, fun db index d feats => rfl, ?_⟩
  · intro db index d hft hfeat hcap
    constructor
    · rw [fulltext_feature_errors]
      unfold fulltext_feature_new
      simp [hfeat, hft]
    · rw [fulltext_support_errors]
      unfold fulltext_support_new
      simp [hcap, hft]
  · intro db index d hfeat
    refine ⟨?_, ?_, ?_⟩
    · apply Diagnostics.eq_of_errors
      rw [fulltext_length_errors]
      unfold fulltext_length_new
      simp [hfeat]
    · apply Diagnostics.eq_of_errors
      rw [fulltext_sort_errors]
      unfold fulltext_sort_new
      simp [hfeat]
    · apply Diagnostics.eq_of_errors
      rw [bundling_errors]
      unfold bundling_new
      simp [hfeat]

/-- Witness for C3 at a concrete full-text declaration on a bare database. -/
theorem C3_fulltext_gates_witness :
    (fulltext_index_preview_feature_enabled bare_db (demo_fulltext_index []) Diagnostics.empty).errors
      = Diagnostics.empty.errors ++ [fulltext_feature_error (demo_fulltext_index [])] :=
  (C3_fulltext_gates_independent.1 bare_db (demo_fulltext_index []) Diagnostics.empty
    (by decide) (by decide) (by decide)).1

/-- C4 counterexample: on a declaration with no attribute syntax node, one
field with a length modifier and the extendedIndexes feature disabled, the
extended-gate rule emits a diagnostic whose span is the empty span rather
than the owning model's span, so a rule can emit an empty-span diagnostic. -/
theorem C4_empty_span_counterexample :
    ((uses_length_or_sort_without_preview_flag bare_db bare_length_index
        Diagnostics.empty).errors.map (fun e => e.span) = [Span.empty])
    ∧ Span.empty ≠ bare_length_index.model.ast_model.span
    ∧ Span.empty.start = Span.empty.endPos := by
  refine ⟨by decide, by decide, rfl⟩

/-- C4 (amended): every diagnostic appended by the pass carries a span from
the fallback chain — a named-argument span of the attribute, the attribute's
own span, the owning model's span, or the empty span; when the declaration
has no attribute syntax, the full-text rules and the unique-name rule fall
back to the model's span while the extended-index gate, the length-prefix
check and the algorithm checks fall back to the empty span. -/
theorem C4_span_fallback_chain :
    (∀ (db : ParserDatabase) (index : IndexWalker) (d : Diagnostics) (e : DatamodelError),
      e ∈ (validate_index db index d).errors → e ∈ d.errors ∨ e.span ∈ span_candidates index)
    ∧ (∀ index : IndexWalker, index.ast_attribute = none →
        (extended_indexes_error index).span = Span.empty
        ∧ (length_prefix_error index).span = Span.empty
        ∧ (hash_algorithm_error index).span = Span.empty
        ∧ (algorithm_feature_error index).span = Span.empty
        ∧ (fulltext_feature_error index).span = index.model.ast_model.span
        ∧ (fulltext_support_error index).span = index.model.ast_model.span
        ∧ (fulltext_length_error index).span = index.model.ast_model.span
        ∧ (fulltext_sort_error index).span = index.model.ast_model.span
        ∧ (bundle_error index).span = index.model.ast_model.span
        ∧ ∀ v, (unique_name_violation_error index v).span = index.model.ast_model.span) := by
  constructor
  · intro db index d e he
    rw [validate_errors] at he
    rcases List.mem_append.mp he with h | h
    · exact Or.inl h
    · exact Or.inr (emissions_span_mem db index e h)
  · intro index ha
    refine ⟨?_, ?_, ?_, ?_, ?_, ?_, ?_, ?_, ?_, fun v => ?_⟩ <;>
      simp [extended_indexes_error, length_prefix_error, hash_algorithm_error,
        algorithm_feature_error, fulltext_feature_error, fulltext_support_error,
        fulltext_length_error, fulltext_sort_error, bundle_error,
        unique_name_violation_error, DatamodelError.new_attribute_validation_error, ha]

/-- Witness for C4 at a concrete emitted diagnostic. -/
theorem C4_span_fallback_witness :
    extended_indexes_error bare_length_index ∈ Diagnostics.empty.errors
      ∨ (extended_indexes_error bare_length_index).span ∈ span_candidates bare_length_index :=
  C4_span_fallback_chain.1 bare_db bare_length_index Diagnostics.empty
    (extended_indexes_error bare_length_index)
    (by
      have h : (validate_index bare_db bare_length_index Diagnostics.empty).errors
          = [extended_indexes_error bare_length_index, length_prefix_error bare_length_index] := by
        decide
      rw [h]
      exact List.mem_cons_self _ _)

/-- C5: the field-bundling checker emits at most one diagnostic per
declaration (spanning the whole declaration), and once an ordering violation
has been found the remaining fields are not consumed: appending further
fields after a violating list changes nothing. -/
theorem C5_bundling_single_emission_short_circuit :
    (∀ (db : ParserDatabase) (index : IndexWalker) (d : Diagnostics),
      (fulltext_text_columns_should_be_bundled_together db index d).errors = d.errors
      ∨ (fulltext_text_columns_should_be_bundled_together db index d).errors
          = d.errors ++ [bundle_error index])
    ∧ (∀ (db : ParserDatabase) (index : IndexWalker) (d : Diagnostics)
        (fs extra : List FieldAttribute),
        errs_head (sorted_flags fs) = true →
        fulltext_text_columns_should_be_bundled_together db (index.with_fields (fs ++ extra)) d
          = fulltext_text_columns_should_be_bundled_together db (index.with_fields fs) d) := by
  constructor
  · intro db index d
    rw [bundling_errors db index d]
    unfold bundling_new
    split
    · exact Or.inr rfl
    · exact Or.inl (by simp)
  · intro db index d fs extra h
    have h2 : errs_head (sorted_flags (fs ++ extra)) = true := by
      rw [sorted_flags_append]
      exact errs_head_append _ _ h
    apply Diagnostics.eq_of_errors
    rw [bundling_errors, bundling_errors]
    unfold bundling_new
    simp [IndexWalker.with_fields, h, h2, bundle_error]

/-- Witness for C5: appending one more field after a violating list leaves the
rule's output unchanged. -/
theorem C5_bundling_witness :
    fulltext_text_columns_should_be_bundled_together demo_db
        ((demo_fulltext_index []).with_fields
          ([field_unsorted, field_sorted, field_unsorted] ++ [field_unsorted]))
        Diagnostics.empty
      = fulltext_text_columns_should_be_bundled_together demo_db
          ((demo_fulltext_index []).with_fields [field_unsorted, field_sorted, field_unsorted])
          Diagnostics.empty :=
  C5_bundling_single_emission_short_circuit.2 demo_db (demo_fulltext_index [])
    Diagnostics.empty [field_unsorted, field_sorted, field_unsorted] [field_unsorted] (by decide)

/-- C6: the bundling checker emits nothing unless all four preconditions
hold; in particular a declaration violating the bundling order on a
connector lacking sort-order-in-full-text support produces no diagnostic. -/
theorem C6_bundling_preconditions_required :
    (∀ (db : ParserDatabase) (index : IndexWalker) (d : Diagnostics),
      (db.preview_features.contains PreviewFeature.FullTextIndex = false
        ∨ (db.active_connector).has_capability ConnectorCapability.FullTextIndex = false
        ∨ index.attr.is_fulltext = false
        ∨ (db.active_connector).has_capability ConnectorCapability.SortOrderInFullTextIndex
            = false) →
      fulltext_text_columns_should_be_bundled_together db index d = d)
    ∧ fulltext_text_columns_should_be_bundled_together no_sort_db
        (demo_fulltext_index [field_unsorted, field_sorted, field_unsorted]) Diagnostics.empty
        = Diagnostics.empty := by
  constructor
  · intro db index d h
    apply Diagnostics.eq_of_errors
    rw [bundling_errors]
    unfold bundling_new
    rcases h with h | h | h | h <;> simp [h]
  · decide

/-- Witness for C6 on a bare database. -/
theorem C6_bundling_preconditions_witness :
    fulltext_text_columns_should_be_bundled_together bare_db (demo_fulltext_index [])
      Diagnostics.empty = Diagnostics.empty :=
  C6_bundling_preconditions_required.1 bare_db (demo_fulltext_index []) Diagnostics.empty
    (Or.inl (by decide))

/-- C7: selecting the hash algorithm on a connector lacking the hash-index
capability emits exactly one diagnostic tagged for the index attribute, and
the preview features have no influence on the outcome. -/
theorem C7_hash_algorithm_unsupported :
    ∀ (db : ParserDatabase) (index : IndexWalker) (d : Diagnostics),
      index.attr.algorithm = some IndexAlgorithm.Hash →
      (db.active_connector).has_capability ConnectorCapability.UsingHashIndex = false →
      (index_algorithm_is_supported db index d).errors = d.errors ++ [hash_algorithm_error index]
        ∧ (hash_algorithm_error index).attribute_name = "index"
        ∧ ∀ feats : List PreviewFeature,
          index_algorithm_is_supported (db.with_features feats) index d
            = index_algorithm_is_supported db index d := by
  intro db index d halg hcap
  refine ⟨?_, rfl, fun feats => rfl⟩
  rw [algorithm_support_errors]
  unfold algorithm_support_new
  simp [halg, hcap]
  rfl

/-- Witness for C7 at a concrete hash-typed declaration. -/
theorem C7_hash_algorithm_witness :
    (index_algorithm_is_supported bare_db hash_index Diagnostics.empty).errors
      = Diagnostics.empty.errors ++ [hash_algorithm_error hash_index] :=
  (C7_hash_algorithm_unsupported bare_db hash_index Diagnostics.empty rfl (by decide)).1

/-- C8: the whole pass is a deterministic function of its inputs: every run
appends the same emission list, so two runs over the same immutable inputs
yield identical diagnostic lists (same messages, same order, same spans). -/
theorem C8_validation_deterministic :
    ∀ (db : ParserDatabase) (index : IndexWalker) (d : Diagnostics),
      (validate_index db index d).errors
        = d.errors ++ (validate_index db index Diagnostics.empty).errors := by
  intro db index d
  rw [validate_errors, validate_errors]
  simp [Diagnostics.empty]

/-- C9: every rule only appends to the diagnostics sink: for each of the ten
rules the input error list is a prefix of the output error list, so no
previously emitted diagnostic is removed or altered. -/
theorem C9_rules_append_only :
    ∀ (db : ParserDatabase) (index : IndexWalker) (d : Diagnostics),
      (∃ t, (has_a_unique_constraint_name db index d).errors = d.errors ++ t)
      ∧ (∃ t, (uses_length_or_sort_without_preview_flag db index d).errors = d.errors ++ t)
      ∧ (∃ t, (field_length_prefix_supported db index d).errors = d.errors ++ t)
      ∧ (∃ t, (index_algorithm_is_supported db index d).errors = d.errors ++ t)
      ∧ (∃ t, (fulltext_index_preview_feature_enabled db index d).errors = d.errors ++ t)
      ∧ (∃ t, (fulltext_index_supported db index d).errors = d.errors ++ t)
      ∧ (∃ t, (index_algorithm_preview_feature db index d).errors = d.errors ++ t)
      ∧ (∃ t, (fulltext_columns_should_not_define_length db index d).errors = d.errors ++ t)
      ∧ (∃ t, (fulltext_column_sort_is_supported db index d).errors = d.errors ++ t)
      ∧ (∃ t, (fulltext_text_columns_should_be_bundled_together db index d).errors
          = d.errors ++ t) :=
  fun db index d =>
    ⟨⟨_, unique_errors db index d⟩,
     ⟨_, uses_length_or_sort_errors db index d⟩,
     ⟨_, length_prefix_errors db index d⟩,
     ⟨_, algorithm_support_errors db index d⟩,
     ⟨_, fulltext_feature_errors db index d⟩,
     ⟨_, fulltext_support_errors db index d⟩,
     ⟨_, algorithm_feature_errors db index d⟩,
     ⟨_, fulltext_length_errors db index d⟩,
     ⟨_, fulltext_sort_errors db index d⟩,
     ⟨_, bundling_errors db index d⟩⟩

/-- C10: the four per-field-modifier rules each emit at most one diagnostic
per declaration, no matter how many of its fields carry the offending
modifier. -/
theorem C10_per_field_rules_emit_at_most_one :
    ∀ (db : ParserDatabase) (index : IndexWalker) (d : Diagnostics),
      (∃ t, (uses_length_or_sort_without_preview_flag db index d).errors = d.errors ++ t
        ∧ t.length ≤ 1)
      ∧ (∃ t, (field_length_prefix_supported db index d).errors = d.errors ++ t ∧ t.length ≤ 1)
      ∧ (∃ t, (fulltext_columns_should_not_define_length db index d).errors = d.errors ++ t
        ∧ t.length ≤ 1)
      ∧ (∃ t, (fulltext_column_sort_is_supported db index d).errors = d.errors ++ t
        ∧ t.length ≤ 1) := by
  intro db index d
  refine ⟨⟨_, uses_length_or_sort_errors db index d, ?_⟩,
    ⟨_, length_prefix_errors db index d, ?_⟩,
    ⟨_, fulltext_length_errors db index d, ?_⟩,
    ⟨_, fulltext_sort_errors db index d, ?_⟩⟩
  · unfold uses_length_or_sort_new
    split <;> simp
  · unfold length_prefix_new
    split <;> simp
  · unfold fulltext_length_new
    split <;> simp
  · unfold fulltext_sort_new
    split <;> simp

end Indexes
